import Mathlib

/-!
Verification of the PUVOP (Posterior Urethral Valves Outcomes Prediction)
Streamlit applications.

The repository contains two app variants:
* `PUVOP.py` — the current app: on submission it converts creatinine units,
  builds one four-feature vector `pt_features`, asks three fitted survival
  models (CKD, RRT, CIC) for a survival function, plots the risk series
  `1 - fn(fn.x)` and tabulates `round(np.interp(h, fn.x, 1 - fn(fn.x)) * 100, 0)`
  at the 1-, 3-, 5- and 10-year horizons.
* `app.py` — the older variant: same feature construction (different key
  labels), per-outcome columns that write rounded 1- and 3-year survival
  probabilities and a survival-curve figure, with an eGFR < 15 gate that
  replaces only the CKD figure by a fixed terminal-state message.

The fitted models themselves are opaque serialized artifacts; they are
parameters of the embedding (functions from a feature vector to a survival
curve, a list of (time, survival probability) knots).  Rationals stand for
the Python floats, and a prediction call that may raise is a function into
`Option`.
-/

/-- Units of measurement for creatinine, the `st.radio` choice. -/
inductive CreatUnits
  | mgdL
  | umolL
deriving DecidableEq

/-- The raw form inputs of both variants: VUR grade flag, creatinine units,
serum nadir creatinine, renal dysplasia flag, baseline eGFR. -/
structure Inputs where
  vur : ℕ
  units : CreatUnits
  snc : ℚ
  renal_dysplasia : ℕ
  egfr : ℚ
deriving DecidableEq

/-- Creatinine unit conversion from the submit handlers of both variants:
the mg/dL branch keeps snc unchanged, the umol/L branch sets snc to
snc/88.42. -/
def convert_snc : CreatUnits → ℚ → ℚ
  | CreatUnits.mgdL, s => s
  | CreatUnits.umolL, s => s / (8842 / 100)

/-- The four-feature vector both variants build from the inputs
(`Max VUR`, `SNC1 (mg/dL)`, `Renal dysplasia`, `Baseline eGFR`). -/
structure FeatureVector where
  max_vur : ℕ
  snc1 : ℚ
  renal_dysplasia : ℕ
  baseline_egfr : ℚ
deriving DecidableEq

/-- `pt_features` of `PUVOP.py` (lines 89-99): unit-converted creatinine and
the other three inputs, built once per submission. -/
def build_pt_features (inp : Inputs) : FeatureVector :=
  { max_vur := inp.vur
    snc1 := convert_snc inp.units inp.snc
    renal_dysplasia := inp.renal_dysplasia
    baseline_egfr := inp.egfr }

/-- `data_features` of `app.py` (lines 119-130); the dictionary keys differ
from `PUVOP.py` (`Max VUR grade`, `Antenatal/Postnatal renal dysplasia`)
but the values are built by the same expressions. -/
def build_data_features (inp : Inputs) : FeatureVector :=
  { max_vur := inp.vur
    snc1 := convert_snc inp.units inp.snc
    renal_dysplasia := inp.renal_dysplasia
    baseline_egfr := inp.egfr }

/-- Helper for `np_interp` on a non-empty point list headed by `p`:
walks the knots; returns `p.2` when `h` is at or left of `p.1`, the numpy
slope formula `fp[i] + (fp[i+1] - fp[i]) * (h - xp[i]) / (xp[i+1] - xp[i])`
when `h` lies in the current interval, and the last ordinate once the list
is exhausted (the right clamp of numpy). -/
def interpAux (h : ℚ) : ℚ × ℚ → List (ℚ × ℚ) → ℚ
  | p, [] => p.2
  | p, q :: rest =>
    if h ≤ p.1 then p.2
    else if h ≤ q.1 then p.2 + (q.2 - p.2) * (h - p.1) / (q.1 - p.1)
    else interpAux h q rest

/-- `np.interp(h, xs, ys)` on the zipped knot list (assumed sorted by time,
as the event-time grids of the fitted models are): one-dimensional piecewise
linear interpolation, clamped to the first value left of the grid and to the
last value right of the grid.  numpy raises on an empty grid, hence `none`. -/
def np_interp (h : ℚ) : List (ℚ × ℚ) → Option ℚ
  | [] => none
  | p :: rest => some (interpAux h p rest)

/-- numpy rounding of a scalar to 0 decimals: round half to even. -/
def np_round0 (q : ℚ) : ℤ :=
  if q - ⌊q⌋ = (1 : ℚ) / 2 then (if 2 ∣ ⌊q⌋ then ⌊q⌋ else ⌊q⌋ + 1) else round q

/-- numpy rounding to `dp` decimal places (used with `dp = 1` in `app.py`). -/
def np_round (dp : ℕ) (q : ℚ) : ℚ :=
  ((np_round0 (q * 10 ^ dp) : ℚ)) / 10 ^ dp

/-- The risk series `zip(fn.x, 1 - fn(fn.x))` plotted and interpolated by
every outcome block of `PUVOP.py`. -/
def risk_series (fn : List (ℚ × ℚ)) : List (ℚ × ℚ) :=
  fn.map fun p => (p.1, 1 - p.2)

/-- One checkpoint row of `PUVOP.py`:
`round(np.interp(years * 365, fn.x, 1 - fn(fn.x)) * 100, 0)`. -/
def risk_at (years : ℚ) (fn : List (ℚ × ℚ)) : Option ℚ :=
  (np_interp (years * 365) (risk_series fn)).map fun v => ((np_round0 (v * 100) : ℤ) : ℚ)

/-- An item written to one of the three outcome columns.  `figure` carries
the data series handed to the plotting call, `table` the checkpoint rows of
the `st.dataframe` (`none` marking an interpolation that numpy would refuse,
i.e. an empty grid), `probText` a labelled numeric probability line, and
`text` a plain message line. -/
inductive DisplayItem
  | figure (series : List (ℚ × ℚ))
  | table (rows : List (ℚ × Option ℚ))
  | probText (label : String) (value : ℚ)
  | text (s : String)
deriving DecidableEq

/-- Checks whether any plain message line occurs among the display items
(the only display form a warning could take in either variant). -/
def has_text_item : List DisplayItem → Bool
  | [] => false
  | DisplayItem.text _ :: _ => true
  | _ :: rest => has_text_item rest

/-- The CKD block of `PUVOP.py` (lines 101-129): a step figure of the risk
series and the checkpoint table at 1, 3, 5 and 10 years. -/
def ckd_block (fn : List (ℚ × ℚ)) : List DisplayItem :=
  [DisplayItem.figure (risk_series fn),
   DisplayItem.table
     [(1, risk_at 1 fn), (3, risk_at 3 fn), (5, risk_at 5 fn), (10, risk_at 10 fn)]]

/-- The RRT block of `PUVOP.py` (lines 131-159), identical in structure to
the CKD block. -/
def rrt_block (fn : List (ℚ × ℚ)) : List DisplayItem :=
  [DisplayItem.figure (risk_series fn),
   DisplayItem.table
     [(1, risk_at 1 fn), (3, risk_at 3 fn), (5, risk_at 5 fn), (10, risk_at 10 fn)]]

/-- The CIC block of `PUVOP.py` (lines 161-189), identical in structure to
the CKD block. -/
def cic_block (fn : List (ℚ × ℚ)) : List DisplayItem :=
  [DisplayItem.figure (risk_series fn),
   DisplayItem.table
     [(1, risk_at 1 fn), (3, risk_at 3 fn), (5, risk_at 5 fn), (10, risk_at 10 fn)]]

/-- What each of the three outcome columns displays after a submission. -/
structure SubmissionResult where
  col1 : List DisplayItem
  col2 : List DisplayItem
  col3 : List DisplayItem
deriving DecidableEq

/-- The `if submitted:` handler of `PUVOP.py` (lines 88-200): build
`pt_features` once, run the CKD, RRT and CIC blocks sequentially on it, then
display all three columns.  Each model is a function returning `Option`
(a `predict_survival_function` call that raises yields `none`); the handler
has no error handling of its own, so any failure aborts the whole
submission before anything is displayed. -/
def submitted_handler (ckd rrt cic : FeatureVector → Option (List (ℚ × ℚ)))
    (inp : Inputs) : Option SubmissionResult := do
  let pt_features := build_pt_features inp
  let ckd_surv ← ckd pt_features
  let rrt_surv ← rrt pt_features
  let cic_surv ← cic pt_features
  pure ⟨ckd_block ckd_surv, rrt_block rrt_surv, cic_block cic_surv⟩

/-- A fitted model of the `app.py` variant: its event-time grid
(`model.times`), the full survival curve `predict_survival(X).flatten()`,
and the point query `predict_survival(X, t)`. -/
structure AppModel where
  times : List ℚ
  predict_curve : FeatureVector → List ℚ
  predict_at : FeatureVector → ℚ → ℚ

/-- The three fitted models loaded by `app.py`. -/
structure AppModels where
  ckd : AppModel
  rrt : AppModel
  cic : AppModel

/-- The fixed terminal-state message of `app.py` (lines 171-172). -/
def terminal_msg : String :=
  "The patient has already progressed to end-stage renal disease based on the information provided"

/-- Label of the 1-year CKD line of `app.py`. -/
def ckd_1yr_label : String := "Probability of avoiding CKD progression at 1 year"

/-- Label of the 3-year CKD line of `app.py`. -/
def ckd_3yr_label : String := "Probability of avoiding CKD progression at 3 years"

/-- Label of the 1-year RRT line of `app.py`. -/
def rrt_1yr_label : String := "Probability of avoiding RRT at 1 year"

/-- Label of the 3-year RRT line of `app.py`. -/
def rrt_3yr_label : String := "Probability of avoiding RRT at 3 years"

/-- Label of the 1-year CIC line of `app.py`. -/
def cic_1yr_label : String := "Probability of avoiding CIC at 1 year"

/-- Label of the 3-year CIC line of `app.py`. -/
def cic_3yr_label : String := "Probability of avoiding CIC at 3 years"

/-- Column 1 of `app.py` (lines 135-174): the rounded 1- and 3-year survival
probabilities are always written; then, when `egfr < 15`, a blank line and
the fixed terminal-state message replace the survival-curve figure. -/
def app_ckd_col (m : AppModel) (v : FeatureVector) (egfr : ℚ) : List DisplayItem :=
  [DisplayItem.probText ckd_1yr_label (np_round 1 (m.predict_at v 365 * 100)),
   DisplayItem.probText ckd_3yr_label (np_round 1 (m.predict_at v 1095 * 100))] ++
  (if egfr < 15 then [DisplayItem.text "", DisplayItem.text terminal_msg]
   else [DisplayItem.figure (m.times.zip (m.predict_curve v))])

/-- Column 2 of `app.py` (lines 176-210): rounded 1- and 3-year survival
probabilities and the survival-curve figure, with no gate. -/
def app_rrt_col (m : AppModel) (v : FeatureVector) : List DisplayItem :=
  [DisplayItem.probText rrt_1yr_label (np_round 1 (m.predict_at v 365 * 100)),
   DisplayItem.probText rrt_3yr_label (np_round 1 (m.predict_at v 1095 * 100)),
   DisplayItem.figure (m.times.zip (m.predict_curve v))]

/-- Column 3 of `app.py` (lines 212-246): rounded 1- and 3-year survival
probabilities and the survival-curve figure, with no gate. -/
def app_cic_col (m : AppModel) (v : FeatureVector) : List DisplayItem :=
  [DisplayItem.probText cic_1yr_label (np_round 1 (m.predict_at v 365 * 100)),
   DisplayItem.probText cic_3yr_label (np_round 1 (m.predict_at v 1095 * 100)),
   DisplayItem.figure (m.times.zip (m.predict_curve v))]

/-- The submit path of `full_app` in `app.py` (lines 119-246): build
`data_features` once, then fill the three columns. -/
def full_app (M : AppModels) (inp : Inputs) : SubmissionResult :=
  { col1 := app_ckd_col M.ckd (build_data_features inp) inp.egfr
    col2 := app_rrt_col M.rrt (build_data_features inp)
    col3 := app_cic_col M.cic (build_data_features inp) }

/-- The non-increasing survival invariant a curve is supposed to satisfy. -/
def monotone_nonincreasing (fn : List (ℚ × ℚ)) : Prop :=
  fn.Pairwise fun p q => q.2 ≤ p.2

instance (fn : List (ℚ × ℚ)) : Decidable (monotone_nonincreasing fn) := by
  unfold monotone_nonincreasing
  infer_instance

lemma interpAux_all_lt (h xl yl : ℚ) :
    ∀ (l : List (ℚ × ℚ)) (p : ℚ × ℚ),
      (∀ q ∈ p :: l ++ [(xl, yl)], q.1 < h) →
      interpAux h p (l ++ [(xl, yl)]) = yl := by
  intro l
  induction l with
  | nil =>
    intro p hq
    have hp : p.1 < h := hq p (by simp)
    have hx : xl < h := hq (xl, yl) (by simp)
    show (if h ≤ p.1 then p.2
          else if h ≤ xl then p.2 + (yl - p.2) * (h - p.1) / (xl - p.1)
          else interpAux h (xl, yl) []) = yl
    rw [if_neg (not_le.mpr hp), if_neg (not_le.mpr hx)]
    rfl
  | cons q l ih =>
    intro p hq
    have hp : p.1 < h := hq p (by simp)
    have hqh : q.1 < h := hq q (by simp)
    show (if h ≤ p.1 then p.2
          else if h ≤ q.1 then p.2 + (q.2 - p.2) * (h - p.1) / (q.1 - p.1)
          else interpAux h q (l ++ [(xl, yl)])) = yl
    rw [if_neg (not_le.mpr hp), if_neg (not_le.mpr hqh)]
    exact ih q fun r hr => hq r (List.mem_cons_of_mem p hr)

lemma np_interp_all_lt (h xl yl : ℚ) (l : List (ℚ × ℚ))
    (hq : ∀ q ∈ l ++ [(xl, yl)], q.1 < h) :
    np_interp h (l ++ [(xl, yl)]) = some yl := by
  cases l with
  | nil => rfl
  | cons p l' =>
    show some (interpAux h p (l' ++ [(xl, yl)])) = some yl
    rw [interpAux_all_lt h xl yl l' p (by simpa using hq)]

lemma interpAux_head_bracket (h x0 y0 x1 y1 : ℚ) (l : List (ℚ × ℚ))
    (_hx : x0 < x1) (h0 : x0 ≤ h) (h1 : h ≤ x1) :
    interpAux h (x0, y0) ((x1, y1) :: l) = y0 + (y1 - y0) * (h - x0) / (x1 - x0) := by
  show (if h ≤ x0 then y0
        else if h ≤ x1 then y0 + (y1 - y0) * (h - x0) / (x1 - x0)
        else interpAux h (x1, y1) l) = y0 + (y1 - y0) * (h - x0) / (x1 - x0)
  by_cases hc : h ≤ x0
  · rw [if_pos hc]
    have hh : h = x0 := le_antisymm hc h0
    rw [hh]
    simp
  · rw [if_neg hc, if_pos h1]

lemma interpAux_bracket (h x0 y0 x1 y1 : ℚ) (l₂ : List (ℚ × ℚ)) :
    ∀ (l₁ : List (ℚ × ℚ)) (p : ℚ × ℚ),
      List.Pairwise (fun a b : ℚ × ℚ => a.1 < b.1)
        (p :: l₁ ++ (x0, y0) :: (x1, y1) :: l₂) →
      x0 ≤ h → h ≤ x1 →
      interpAux h p (l₁ ++ (x0, y0) :: (x1, y1) :: l₂)
        = y0 + (y1 - y0) * (h - x0) / (x1 - x0) := by
  intro l₁
  induction l₁ with
  | nil =>
    intro p hpw h0 h1
    simp only [List.cons_append, List.nil_append, List.pairwise_cons] at hpw
    have hp0 : p.1 < x0 := hpw.1 (x0, y0) (by simp)
    have h01 : x0 < x1 := hpw.2.1 (x1, y1) (by simp)
    have hph : p.1 < h := lt_of_lt_of_le hp0 h0
    show (if h ≤ p.1 then p.2
          else if h ≤ x0 then p.2 + (y0 - p.2) * (h - p.1) / (x0 - p.1)
          else interpAux h (x0, y0) ((x1, y1) :: l₂))
        = y0 + (y1 - y0) * (h - x0) / (x1 - x0)
    rw [if_neg (not_le.mpr hph)]
    by_cases hc : h ≤ x0
    · rw [if_pos hc]
      have hh : h = x0 := le_antisymm hc h0
      have hne : x0 - p.1 ≠ 0 := sub_ne_zero.mpr (ne_of_gt hp0)
      rw [hh, mul_div_assoc, div_self hne, mul_one]
      simp
    · rw [if_neg hc]
      exact interpAux_head_bracket h x0 y0 x1 y1 l₂ h01 (le_of_lt (not_le.mp hc)) h1
  | cons q l₁ ih =>
    intro p hpw h0 h1
    have hpw' : List.Pairwise (fun a b : ℚ × ℚ => a.1 < b.1)
        (p :: (q :: (l₁ ++ (x0, y0) :: (x1, y1) :: l₂))) := by
      simpa using hpw
    rw [List.pairwise_cons] at hpw'
    have hp : p.1 < h :=
      lt_of_lt_of_le (hpw'.1 (x0, y0) (by simp)) h0
    have htail := hpw'.2
    have hqlt : q.1 < h := by
      rw [List.pairwise_cons] at htail
      exact lt_of_lt_of_le (htail.1 (x0, y0) (by simp)) h0
    show (if h ≤ p.1 then p.2
          else if h ≤ q.1 then p.2 + (q.2 - p.2) * (h - p.1) / (q.1 - p.1)
          else interpAux h q (l₁ ++ (x0, y0) :: (x1, y1) :: l₂))
        = y0 + (y1 - y0) * (h - x0) / (x1 - x0)
    rw [if_neg (not_le.mpr hp), if_neg (not_le.mpr hqlt)]
    exact ih q (by simpa using hpw'.2) h0 h1

lemma np_interp_bracket (l₁ l₂ : List (ℚ × ℚ)) (x0 y0 x1 y1 h : ℚ)
    (hpw : List.Pairwise (fun a b : ℚ × ℚ => a.1 < b.1)
      (l₁ ++ (x0, y0) :: (x1, y1) :: l₂))
    (h0 : x0 ≤ h) (h1 : h ≤ x1) :
    np_interp h (l₁ ++ (x0, y0) :: (x1, y1) :: l₂)
      = some (y0 + (y1 - y0) * (h - x0) / (x1 - x0)) := by
  cases l₁ with
  | nil =>
    have h01 : x0 < x1 := by
      rw [List.nil_append, List.pairwise_cons] at hpw
      exact hpw.1 (x1, y1) (by simp)
    show some (interpAux h (x0, y0) ((x1, y1) :: l₂)) = _
    rw [interpAux_head_bracket h x0 y0 x1 y1 l₂ h01 h0 h1]
  | cons p l₁ =>
    show some (interpAux h p (l₁ ++ (x0, y0) :: (x1, y1) :: l₂)) = _
    rw [interpAux_bracket h x0 y0 x1 y1 l₂ l₁ p hpw h0 h1]

lemma np_interp_le_head (x0 y0 h : ℚ) (rest : List (ℚ × ℚ)) (hle : h ≤ x0) :
    np_interp h ((x0, y0) :: rest) = some y0 := by
  cases rest with
  | nil => rfl
  | cons q rest' =>
    show some (if h ≤ x0 then y0
               else if h ≤ q.1 then y0 + (q.2 - y0) * (h - x0) / (q.1 - x0)
               else interpAux h q rest') = some y0
    rw [if_pos hle]

lemma risk_at_eval (years v w : ℚ) (fn : List (ℚ × ℚ)) (r : ℤ)
    (hi : np_interp (years * 365) (risk_series fn) = some v)
    (hw : v * 100 = w)
    (hr : np_round0 w = r) :
    risk_at years fn = some (r : ℚ) := by
  unfold risk_at
  rw [hi, Option.map_some', hw, hr]

/-- A concrete survival model of the `app.py` kind, used to instantiate the
gate theorems: constant survival 4/5 at every point query. -/
def unit_app_model : AppModel :=
  { times := [0, 365, 1095]
    predict_curve := fun _ => [1, 9 / 10, 4 / 5]
    predict_at := fun _ _ => 4 / 5 }

/-- A trivial constant survival model for the ungated columns. -/
def const_app_model : AppModel :=
  { times := [0], predict_curve := fun _ => [1], predict_at := fun _ _ => 1 }

/-- A concrete model triple for the `app.py` embedding. -/
def sample_models : AppModels :=
  { ckd := unit_app_model, rrt := const_app_model, cic := const_app_model }

/-- Concrete inputs with baseline eGFR 10, below the end-stage threshold. -/
def sample_inputs_low_egfr : Inputs :=
  { vur := 1, units := CreatUnits.mgdL, snc := 1 / 2, renal_dysplasia := 1, egfr := 10 }

/-- C1 counterexample: for the curve with knots at days 0 and 100 (last
observed time 100, far before the 10-year horizon 3650), the `PUVOP.py`
checkpoint computation `round(np.interp(10*365, fn.x, 1 - fn(fn.x))*100, 0)`
returns the numeric estimate 10 (the clamped last value of the risk series),
not an undefined / out-of-domain report. -/
theorem c1_clamp_counterexample :
    risk_at 10 [((0 : ℚ), (1 : ℚ)), (100, 9 / 10)] = some 10 ∧ (100 : ℚ) < 10 * 365 := by
  constructor
  · norm_num [risk_at, np_interp, interpAux, risk_series, np_round0, round_eq]
  · norm_num

/-- C1 (amended): for every horizon strictly beyond every knot time of a
non-empty curve, `np.interp` silently clamps and returns the last knot
value as a numeric estimate; no out-of-domain result is ever produced. -/
theorem c1_np_interp_clamps_beyond_last (l : List (ℚ × ℚ)) (xl yl h : ℚ)
    (hq : ∀ q ∈ l ++ [(xl, yl)], q.1 < h) :
    np_interp h (l ++ [(xl, yl)]) = some yl :=
  np_interp_all_lt h xl yl l hq

/-- Witness for C1: the clamp theorem applied to a concrete two-knot risk
series queried at the 10-year horizon. -/
theorem c1_witness :
    np_interp 3650 [((0 : ℚ), (0 : ℚ)), (100, 1 / 10)] = some (1 / 10) :=
  c1_np_interp_clamps_beyond_last [((0 : ℚ), (0 : ℚ))] 100 (1 / 10) 3650 (by norm_num)

/-- C2 counterexample: in `PUVOP.py`, a submission with baseline eGFR 10
(below 15) still gets a fully computed CKD risk curve and checkpoint table
in column 1 — no fixed terminal-state message is produced anywhere. -/
theorem c2_no_gate_counterexample :
    (submitted_handler
        (fun _ => some [((0 : ℚ), (1 : ℚ)), (365, 4 / 5), (3650, 3 / 5)])
        (fun _ => some [((0 : ℚ), (1 : ℚ))])
        (fun _ => some [((0 : ℚ), (1 : ℚ))])
        sample_inputs_low_egfr).map SubmissionResult.col1
      = some [DisplayItem.figure [((0 : ℚ), (0 : ℚ)), (365, 1 / 5), (3650, 2 / 5)],
              DisplayItem.table [(1, some 20), (3, some 24), (5, some 29), (10, some 40)]] ∧
    has_text_item
        [DisplayItem.figure [((0 : ℚ), (0 : ℚ)), (365, 1 / 5), (3650, 2 / 5)],
         DisplayItem.table [(1, some 20), (3, some 24), (5, some 29), (10, some 40)]]
      = false := by
  constructor
  · have es : risk_series [((0 : ℚ), (1 : ℚ)), (365, 4 / 5), (3650, 3 / 5)]
        = [((0 : ℚ), (0 : ℚ)), (365, 1 / 5), (3650, 2 / 5)] := by
      norm_num [risk_series]
    have e1 : risk_at 1 [((0 : ℚ), (1 : ℚ)), (365, 4 / 5), (3650, 3 / 5)] = some 20 :=
      risk_at_eval 1 (1 / 5) 20 _ 20
        (by norm_num [risk_series, np_interp, interpAux]) (by norm_num)
        (by norm_num [np_round0, round_eq])
    have e3 : risk_at 3 [((0 : ℚ), (1 : ℚ)), (365, 4 / 5), (3650, 3 / 5)] = some 24 :=
      risk_at_eval 3 (11 / 45) (220 / 9) _ 24
        (by norm_num [risk_series, np_interp, interpAux]) (by norm_num)
        (by norm_num [np_round0, round_eq])
    have e5 : risk_at 5 [((0 : ℚ), (1 : ℚ)), (365, 4 / 5), (3650, 3 / 5)] = some 29 :=
      risk_at_eval 5 (13 / 45) (260 / 9) _ 29
        (by norm_num [risk_series, np_interp, interpAux]) (by norm_num)
        (by norm_num [np_round0, round_eq])
    have e10 : risk_at 10 [((0 : ℚ), (1 : ℚ)), (365, 4 / 5), (3650, 3 / 5)] = some 40 :=
      risk_at_eval 10 (2 / 5) 40 _ 40
        (by norm_num [risk_series, np_interp, interpAux]) (by norm_num)
        (by norm_num [np_round0, round_eq])
    have hh : (submitted_handler
          (fun _ => some [((0 : ℚ), (1 : ℚ)), (365, 4 / 5), (3650, 3 / 5)])
          (fun _ => some [((0 : ℚ), (1 : ℚ))])
          (fun _ => some [((0 : ℚ), (1 : ℚ))])
          sample_inputs_low_egfr).map SubmissionResult.col1
        = some (ckd_block [((0 : ℚ), (1 : ℚ)), (365, 4 / 5), (3650, 3 / 5)]) := rfl
    rw [hh]
    unfold ckd_block
    rw [es, e1, e3, e5, e10]
  · rfl

/-- C2 (amended): only the `app.py` variant gates on baseline eGFR: for
every submission with eGFR below 15 its CKD column shows the fixed
terminal-state message and no curve figure — regardless of the other
inputs — while the rounded 1- and 3-year probabilities are still written;
the `PUVOP.py` variant applies no such gate. -/
theorem c2_app_egfr_gate (M : AppModels) (inp : Inputs) (hlt : inp.egfr < 15) :
    (full_app M inp).col1 =
      [DisplayItem.probText ckd_1yr_label
         (np_round 1 (M.ckd.predict_at (build_data_features inp) 365 * 100)),
       DisplayItem.probText ckd_3yr_label
         (np_round 1 (M.ckd.predict_at (build_data_features inp) 1095 * 100)),
       DisplayItem.text "", DisplayItem.text terminal_msg] ∧
    ∀ s, DisplayItem.figure s ∉ (full_app M inp).col1 := by
  have hcol : (full_app M inp).col1 =
      [DisplayItem.probText ckd_1yr_label
         (np_round 1 (M.ckd.predict_at (build_data_features inp) 365 * 100)),
       DisplayItem.probText ckd_3yr_label
         (np_round 1 (M.ckd.predict_at (build_data_features inp) 1095 * 100)),
       DisplayItem.text "", DisplayItem.text terminal_msg] := by
    show app_ckd_col M.ckd (build_data_features inp) inp.egfr = _
    unfold app_ckd_col
    rw [if_pos hlt]
    rfl
  refine ⟨hcol, ?_⟩
  intro s
  rw [hcol]
  simp

/-- Witness for C2: gate theorem applied to concrete models and inputs with
eGFR 10; the CKD column evaluates to the two probability lines followed by
the terminal-state message. -/
theorem c2_witness :
    (full_app sample_models sample_inputs_low_egfr).col1 =
      [DisplayItem.probText ckd_1yr_label 80, DisplayItem.probText ckd_3yr_label 80,
       DisplayItem.text "", DisplayItem.text terminal_msg] := by
  have h := (c2_app_egfr_gate sample_models sample_inputs_low_egfr
    (by norm_num [sample_inputs_low_egfr])).1
  rw [h]
  norm_num [sample_models, unit_app_model, np_round, np_round0, round_eq]

/-- C3: `np.interp` is exact piecewise-linear interpolation on the grid:
for a strictly time-sorted curve and a horizon between a bracketing pair of
knots the estimate is `y0 + (y1 - y0) * (h - x0) / (x1 - x0)` (at `h = x0`
this degenerates to `y0` and at `h = x1` to `y1`, so an exact knot returns
the knot value), and a horizon at or before the first knot returns the
first value. -/
theorem c3_np_interp_piecewise_linear :
    (∀ (l₁ l₂ : List (ℚ × ℚ)) (x0 y0 x1 y1 h : ℚ),
      List.Pairwise (fun a b : ℚ × ℚ => a.1 < b.1)
        (l₁ ++ (x0, y0) :: (x1, y1) :: l₂) →
      x0 ≤ h → h ≤ x1 →
      np_interp h (l₁ ++ (x0, y0) :: (x1, y1) :: l₂)
        = some (y0 + (y1 - y0) * (h - x0) / (x1 - x0))) ∧
    (∀ (x0 y0 h : ℚ) (rest : List (ℚ × ℚ)), h ≤ x0 →
      np_interp h ((x0, y0) :: rest) = some y0) :=
  ⟨fun l₁ l₂ x0 y0 x1 y1 h hpw h0 h1 => np_interp_bracket l₁ l₂ x0 y0 x1 y1 h hpw h0 h1,
   fun x0 y0 h rest hle => np_interp_le_head x0 y0 h rest hle⟩

/-- Witness for C3: the interpolation formula at horizon 25 on the two-knot
curve from (0,1) to (100,0), and the left clamp at horizon -5. -/
theorem c3_witness :
    np_interp 25 [((0 : ℚ), (1 : ℚ)), (100, 0)]
      = some (1 + (0 - 1) * (25 - 0) / (100 - 0)) ∧
    np_interp (-5) [((0 : ℚ), (1 : ℚ)), (100, 0)] = some 1 :=
  ⟨c3_np_interp_piecewise_linear.1 [] [] 0 1 100 0 25
      (by norm_num [List.pairwise_cons]) (by norm_num) (by norm_num),
   c3_np_interp_piecewise_linear.2 0 1 (-5) [(100, 0)] (by norm_num)⟩

/-- C4: the risk series every `PUVOP.py` block plots and interpolates is
pointwise complementary to the survival curve: the first displayed item of
the CKD block is the figure of `risk_series fn`, and each of its points has
the same time as the corresponding survival knot with
risk + survival = 1. -/
theorem c4_risk_survival_complementary (fn : List (ℚ × ℚ)) :
    (ckd_block fn).head? = some (DisplayItem.figure (risk_series fn)) ∧
    ∀ pr ∈ (risk_series fn).zip fn, pr.1.1 = pr.2.1 ∧ pr.1.2 + pr.2.2 = 1 := by
  refine ⟨rfl, ?_⟩
  induction fn with
  | nil => intro pr hpr; simp [risk_series] at hpr
  | cons p tl ih =>
    intro pr hpr
    simp only [risk_series, List.map_cons, List.zip_cons_cons, List.mem_cons] at hpr
    rcases hpr with h | h
    · subst h
      exact ⟨rfl, by ring⟩
    · exact ih pr h

/-- Witness for C4: the complementarity theorem applied to the single-knot
curve [(0, 1)], whose risk point is (0, 0). -/
theorem c4_witness :
    (ckd_block [((0 : ℚ), (1 : ℚ))]).head?
      = some (DisplayItem.figure (risk_series [((0 : ℚ), (1 : ℚ))])) ∧
    ((((0 : ℚ), (0 : ℚ)), ((0 : ℚ), (1 : ℚ))).1.1
        = (((0 : ℚ), (0 : ℚ)), ((0 : ℚ), (1 : ℚ))).2.1 ∧
      (((0 : ℚ), (0 : ℚ)), ((0 : ℚ), (1 : ℚ))).1.2
        + (((0 : ℚ), (0 : ℚ)), ((0 : ℚ), (1 : ℚ))).2.2 = 1) :=
  ⟨(c4_risk_survival_complementary [((0 : ℚ), (1 : ℚ))]).1,
   (c4_risk_survival_complementary [((0 : ℚ), (1 : ℚ))]).2
     (((0 : ℚ), (0 : ℚ)), ((0 : ℚ), (1 : ℚ))) (by norm_num [risk_series])⟩

/-- C5: creatinine unit handling of both submit handlers: an mg/dL value is
passed through unchanged, a umol/L value is divided by the fixed constant
88.42 (so 44.21 umol/L becomes exactly 1/2 mg/dL over exact arithmetic),
and multiplying a converted value back by 88.42 recovers the original. -/
theorem c5_convert_snc_spec (s : ℚ) :
    convert_snc CreatUnits.mgdL s = s ∧
    convert_snc CreatUnits.umolL (4421 / 100) = 1 / 2 ∧
    convert_snc CreatUnits.umolL s * (8842 / 100) = s := by
  refine ⟨rfl, by norm_num [convert_snc], ?_⟩
  show s / (8842 / 100) * (8842 / 100) = s
  rw [div_mul_cancel₀]
  norm_num

/-- C6: no overshoot: for a horizon strictly between two consecutive knots
of a strictly time-sorted curve, the `np.interp` estimate lies between the
two bracketing ordinates inclusive. -/
theorem c6_np_interp_no_overshoot (l₁ l₂ : List (ℚ × ℚ)) (x0 y0 x1 y1 h v : ℚ)
    (hpw : List.Pairwise (fun a b : ℚ × ℚ => a.1 < b.1)
      (l₁ ++ (x0, y0) :: (x1, y1) :: l₂))
    (h0 : x0 < h) (h1 : h < x1)
    (hv : np_interp h (l₁ ++ (x0, y0) :: (x1, y1) :: l₂) = some v) :
    min y0 y1 ≤ v ∧ v ≤ max y0 y1 := by
  have heq := np_interp_bracket l₁ l₂ x0 y0 x1 y1 h hpw (le_of_lt h0) (le_of_lt h1)
  rw [heq] at hv
  have h3 : y0 + (y1 - y0) * (h - x0) / (x1 - x0) = v := Option.some.inj hv
  subst h3
  rw [mul_div_assoc]
  set t := (h - x0) / (x1 - x0) with ht
  have ht0 : 0 ≤ t := div_nonneg (by linarith) (by linarith)
  have ht1 : t ≤ 1 := (div_le_one (by linarith)).mpr (by linarith)
  rcases le_total y0 y1 with hy | hy
  · rw [min_eq_left hy, max_eq_right hy]
    have k1 : 0 ≤ (y1 - y0) * t := mul_nonneg (by linarith) ht0
    have k2 : (y1 - y0) * t ≤ y1 - y0 := mul_le_of_le_one_right (by linarith) ht1
    constructor <;> linarith
  · rw [min_eq_right hy, max_eq_left hy]
    have k1 : 0 ≤ (y0 - y1) * t := mul_nonneg (by linarith) ht0
    have k2 : (y0 - y1) * t ≤ y0 - y1 := mul_le_of_le_one_right (by linarith) ht1
    have hneg : (y1 - y0) * t = -((y0 - y1) * t) := by ring
    constructor <;> linarith

/-- Witness for C6: the no-overshoot theorem at horizon 25 strictly between
the knots (0,1) and (100,0), where the estimate is 3/4. -/
theorem c6_witness :
    min (1 : ℚ) 0 ≤ 3 / 4 ∧ (3 / 4 : ℚ) ≤ max 1 0 :=
  c6_np_interp_no_overshoot [] [] 0 1 100 0 25 (3 / 4)
    (by norm_num [List.pairwise_cons]) (by norm_num) (by norm_num)
    (by norm_num [np_interp, interpAux])

/-- C7 counterexample: for the curve [(0, 1/2), (100, 9/10)], whose
survival probability strictly increases (violating the non-increasing
invariant), the `PUVOP.py` submission still produces an ordinary figure and
fully numeric checkpoint table, with no message or warning item of any
kind in the column. -/
theorem c7_no_flag_counterexample :
    ¬ monotone_nonincreasing [((0 : ℚ), (1 : ℚ) / 2), (100, 9 / 10)] ∧
    (submitted_handler
        (fun _ => some [((0 : ℚ), (1 : ℚ) / 2), (100, 9 / 10)])
        (fun _ => some [((0 : ℚ), (1 : ℚ))])
        (fun _ => some [((0 : ℚ), (1 : ℚ))])
        sample_inputs_low_egfr).map SubmissionResult.col1
      = some [DisplayItem.figure [((0 : ℚ), (1 : ℚ) / 2), (100, 1 / 10)],
              DisplayItem.table [(1, some 10), (3, some 10), (5, some 10), (10, some 10)]] ∧
    has_text_item
        [DisplayItem.figure [((0 : ℚ), (1 : ℚ) / 2), (100, 1 / 10)],
         DisplayItem.table [(1, some 10), (3, some 10), (5, some 10), (10, some 10)]]
      = false := by
  refine ⟨?_, ?_, rfl⟩
  · norm_num [monotone_nonincreasing, List.pairwise_cons]
  · have es : risk_series [((0 : ℚ), (1 : ℚ) / 2), (100, 9 / 10)]
        = [((0 : ℚ), (1 : ℚ) / 2), (100, 1 / 10)] := by
      norm_num [risk_series]
    have e1 : risk_at 1 [((0 : ℚ), (1 : ℚ) / 2), (100, 9 / 10)] = some 10 :=
      risk_at_eval 1 (1 / 10) 10 _ 10
        (by norm_num [risk_series, np_interp, interpAux]) (by norm_num)
        (by norm_num [np_round0, round_eq])
    have e3 : risk_at 3 [((0 : ℚ), (1 : ℚ) / 2), (100, 9 / 10)] = some 10 :=
      risk_at_eval 3 (1 / 10) 10 _ 10
        (by norm_num [risk_series, np_interp, interpAux]) (by norm_num)
        (by norm_num [np_round0, round_eq])
    have e5 : risk_at 5 [((0 : ℚ), (1 : ℚ) / 2), (100, 9 / 10)] = some 10 :=
      risk_at_eval 5 (1 / 10) 10 _ 10
        (by norm_num [risk_series, np_interp, interpAux]) (by norm_num)
        (by norm_num [np_round0, round_eq])
    have e10 : risk_at 10 [((0 : ℚ), (1 : ℚ) / 2), (100, 9 / 10)] = some 10 :=
      risk_at_eval 10 (1 / 10) 10 _ 10
        (by norm_num [risk_series, np_interp, interpAux]) (by norm_num)
        (by norm_num [np_round0, round_eq])
    have hh : (submitted_handler
          (fun _ => some [((0 : ℚ), (1 : ℚ) / 2), (100, 9 / 10)])
          (fun _ => some [((0 : ℚ), (1 : ℚ))])
          (fun _ => some [((0 : ℚ), (1 : ℚ))])
          sample_inputs_low_egfr).map SubmissionResult.col1
        = some (ckd_block [((0 : ℚ), (1 : ℚ) / 2), (100, 9 / 10)]) := rfl
    rw [hh]
    unfold ckd_block
    rw [es, e1, e3, e5, e10]

/-- C7 (amended): the engine performs no monotonicity check at all: even
for a curve violating the non-increasing survival invariant, the CKD block
is exactly the usual figure plus checkpoint table, and contains no warning
or message item. -/
theorem c7_no_monotonicity_check (fn : List (ℚ × ℚ))
    (_hmono : ¬ monotone_nonincreasing fn) :
    ckd_block fn =
      [DisplayItem.figure (risk_series fn),
       DisplayItem.table
         [(1, risk_at 1 fn), (3, risk_at 3 fn), (5, risk_at 5 fn), (10, risk_at 10 fn)]] ∧
    has_text_item (ckd_block fn) = false :=
  ⟨rfl, rfl⟩

/-- Witness for C7: the amended theorem applied to a concrete
non-monotonic curve. -/
theorem c7_witness :
    has_text_item (ckd_block [((0 : ℚ), (1 : ℚ) / 2), (100, 9 / 10)]) = false :=
  (c7_no_monotonicity_check [((0 : ℚ), (1 : ℚ) / 2), (100, 9 / 10)]
    (by norm_num [monotone_nonincreasing, List.pairwise_cons])).2

/-- C8 counterexample: with working RRT and CIC models, a failing CKD
prediction makes the whole `PUVOP.py` submission produce nothing: no
partial results and no per-outcome error annotation. -/
theorem c8_failure_not_isolated_counterexample :
    submitted_handler (fun _ => none)
      (fun _ => some [((0 : ℚ), (1 : ℚ))])
      (fun _ => some [((0 : ℚ), (1 : ℚ))])
      sample_inputs_low_egfr = none :=
  rfl

/-- C8 (amended): the three outcome blocks run sequentially inside one
handler with no per-outcome error handling, and the columns are displayed
only after all three complete; hence a failure of any one outcome aborts
the entire submission and nothing is returned for the others. -/
theorem c8_failure_aborts_submission (f g : FeatureVector → Option (List (ℚ × ℚ)))
    (c₁ c₂ : List (ℚ × ℚ)) (inp : Inputs) :
    submitted_handler (fun _ => none) f g inp = none ∧
    submitted_handler (fun _ => some c₁) (fun _ => none) g inp = none ∧
    submitted_handler (fun _ => some c₁) (fun _ => some c₂) (fun _ => none) inp = none :=
  ⟨rfl, rfl, rfl⟩

/-- C9: in the `app.py` variant the eGFR gate touches only the CKD figure:
when eGFR is below 15 the CKD column is the two computed probability lines
followed by the terminal message, while columns 2 and 3 equal the ungated
RRT and CIC column computations — the same computations they equal for any
submission with eGFR at least 15. -/
theorem c9_app_gate_scope (M : AppModels) (inp : Inputs) (hlt : inp.egfr < 15) :
    (full_app M inp).col1 =
      [DisplayItem.probText ckd_1yr_label
         (np_round 1 (M.ckd.predict_at (build_data_features inp) 365 * 100)),
       DisplayItem.probText ckd_3yr_label
         (np_round 1 (M.ckd.predict_at (build_data_features inp) 1095 * 100)),
       DisplayItem.text "", DisplayItem.text terminal_msg] ∧
    (full_app M inp).col2 = app_rrt_col M.rrt (build_data_features inp) ∧
    (full_app M inp).col3 = app_cic_col M.cic (build_data_features inp) ∧
    ∀ inp2 : Inputs, 15 ≤ inp2.egfr →
      (full_app M inp2).col2 = app_rrt_col M.rrt (build_data_features inp2) ∧
      (full_app M inp2).col3 = app_cic_col M.cic (build_data_features inp2) := by
  refine ⟨?_, rfl, rfl, fun inp2 _ => ⟨rfl, rfl⟩⟩
  show app_ckd_col M.ckd (build_data_features inp) inp.egfr = _
  unfold app_ckd_col
  rw [if_pos hlt]
  rfl

/-- Witness for C9: the gate-scope theorem at the concrete sample models and
inputs with eGFR 10; column 2 evaluates to the ungated RRT column. -/
theorem c9_witness :
    (full_app sample_models sample_inputs_low_egfr).col2 =
      app_rrt_col sample_models.rrt (build_data_features sample_inputs_low_egfr) :=
  (c9_app_gate_scope sample_models sample_inputs_low_egfr
    (by norm_num [sample_inputs_low_egfr])).2.1

/-- C10: both variants build the four-feature vector exactly once per
submission and pass that same vector unchanged to all three predict calls:
the handler output decomposes as the three blocks applied to the three
models at the single vector built from the inputs. -/
theorem c10_single_feature_vector (f g k : FeatureVector → List (ℚ × ℚ))
    (M : AppModels) (inp : Inputs) :
    submitted_handler (fun v => some (f v)) (fun v => some (g v)) (fun v => some (k v)) inp
      = some { col1 := ckd_block (f (build_pt_features inp))
               col2 := rrt_block (g (build_pt_features inp))
               col3 := cic_block (k (build_pt_features inp)) } ∧
    full_app M inp
      = { col1 := app_ckd_col M.ckd (build_data_features inp) inp.egfr
          col2 := app_rrt_col M.rrt (build_data_features inp)
          col3 := app_cic_col M.cic (build_data_features inp) } :=
  ⟨rfl, rfl⟩
